import Mathlib

/-!
Verification of the fake-news-detection pipeline's labeler and scraper
persistence logic, shallowly embedded from
`src/python/scrapers/labeler.py` and `src/python/scrapers/politifact_scraper.py`.

Python strings are embedded as `String`; `x in v` (substring test) as infix of
the character lists; `v.lower()` as character-wise `Char.toLower`.  SQLite
tables are embedded as lists of rows; an `UPDATE ... WHERE id = ?` maps over
the list.  Similarity scores (floats in the source) are embedded as `ℚ`, and
the embedding model is an explicit parameter `sim : String → String → ℚ`
giving the cosine similarity of (article title, fact-check claim).
-/

/-- Python `s.lower()`: character-wise lowercasing. -/
def pyLower (s : String) : String := String.mk (s.toList.map Char.toLower)

/-- Python `sub in s`: substring containment. -/
def pyContains (s sub : String) : Bool := decide (sub.toList <:+: s.toList)

/-- The FAKE-indicator substrings of `labeler.map_verdict_to_label`. -/
def FAKE_INDICATORS : List String := ["false", "pants-fire", "barely-true"]

/-- The REAL-indicator substrings of `labeler.map_verdict_to_label`. -/
def REAL_INDICATORS : List String := ["true", "mostly-true"]

/-- `labeler.map_verdict_to_label`: lowercase the verdict, return 1 (FAKE) if
any FAKE indicator occurs as a substring, else 0 (REAL) if any REAL indicator
occurs, else `none`. -/
def map_verdict_to_label (verdict_text : String) : Option Nat :=
  let v := pyLower verdict_text
  if FAKE_INDICATORS.any (fun x => pyContains v x) then some 1
  else if REAL_INDICATORS.any (fun x => pyContains v x) then some 0
  else none

theorem toList_pyLower (s : String) : (pyLower s).toList = s.toList.map Char.toLower := rfl

theorem pyContains_pyLower (s x : String) (hx : x.toList.map Char.toLower = x.toList)
    (h : pyContains s x = true) : pyContains (pyLower s) x = true := by
  simp only [pyContains, decide_eq_true_eq] at h ⊢
  rw [toList_pyLower, ← hx]
  obtain ⟨p, q, hpq⟩ := h
  exact ⟨p.map Char.toLower, q.map Char.toLower, by rw [← hpq]; simp⟩

theorem map_verdict_eq_one_of_fake (v : String)
    (h : ∃ x ∈ FAKE_INDICATORS, pyContains (pyLower v) x = true) :
    map_verdict_to_label v = some 1 := by
  have hany : FAKE_INDICATORS.any (fun x => pyContains (pyLower v) x) = true :=
    List.any_eq_true.2 h
  simp [map_verdict_to_label, hany]

/-- Each FAKE indicator is already lowercase, hence fixed by `pyLower`. -/
theorem fake_indicator_lower (x : String) (hx : x ∈ FAKE_INDICATORS) :
    x.toList.map Char.toLower = x.toList := by
  fin_cases hx <;> decide

/-- C5: `map_verdict_to_label` evaluates the FAKE-indicator test before the
REAL-indicator test: every verdict string containing both a FAKE-indicator
substring and a REAL-indicator substring is mapped to FAKE (1). -/
theorem C5_fake_test_precedes_real (v : String)
    (hf : ∃ x ∈ FAKE_INDICATORS, pyContains v x = true)
    (hr : ∃ x ∈ REAL_INDICATORS, pyContains v x = true) :
    map_verdict_to_label v = some 1 := by
  obtain ⟨x, hxm, hxc⟩ := hf
  exact map_verdict_eq_one_of_fake v
    ⟨x, hxm, pyContains_pyLower v x (fake_indicator_lower x hxm) hxc⟩

/-- Witness for C5 at the verdict "barely-true", which contains the
FAKE indicator "barely-true" and the REAL indicator "true". -/
theorem C5_fake_test_precedes_real_witness :
    (∃ x ∈ FAKE_INDICATORS, pyContains "barely-true" x = true) ∧
    (∃ x ∈ REAL_INDICATORS, pyContains "barely-true" x = true) ∧
    map_verdict_to_label "barely-true" = some 1 :=
  ⟨⟨"barely-true", by decide, by decide⟩, ⟨"true", by decide, by decide⟩,
    C5_fake_test_precedes_real "barely-true"
      ⟨"barely-true", by decide, by decide⟩ ⟨"true", by decide, by decide⟩⟩

/-- A row of the `articles` table
(`articles(id, url, source, title, text, authors, publish_date, scraped_at,
is_processed, verified_label, label_source)`). -/
structure Article where
  id : Nat
  url : String
  source : String
  title : String
  text : String
  authors : String
  publish_date : String
  scraped_at : String
  is_processed : Nat
  verified_label : Option Nat
  label_source : Option String
deriving DecidableEq, Repr

/-- The effect of `SET verified_label = ?, label_source = ?` on one row. -/
def setLabel (label : Nat) (source_info : String) (a : Article) : Article :=
  { a with verified_label := some label, label_source := some source_info }

/-- `labeler.update_article_label`: the SQL
`UPDATE articles SET verified_label = ?, label_source = ? WHERE id = ?`,
as a map over the table's rows. -/
def update_article_label (db : List Article) (article_id : Nat) (label : Nat)
    (source_info : String) : List Article :=
  db.map (fun a => if a.id = article_id then setLabel label source_info a else a)

/-- C7: `update_article_label` keeps the table's length; every row whose id
differs from the target id is unchanged (in place); the row whose id equals the
target id changes only its `verified_label` and `label_source` fields; and if
no row carries the target id the table is left entirely unchanged (silent
no-op, no error). -/
theorem C7_update_article_label_frame (db : List Article) (aid label : Nat) (src : String) :
    (update_article_label db aid label src).length = db.length ∧
    (∀ (i : Nat) (a : Article), db[i]? = some a → a.id ≠ aid →
      (update_article_label db aid label src)[i]? = some a) ∧
    (∀ (i : Nat) (a : Article), db[i]? = some a → a.id = aid →
      (update_article_label db aid label src)[i]? =
        some { a with verified_label := some label, label_source := some src }) ∧
    ((∀ a ∈ db, a.id ≠ aid) → update_article_label db aid label src = db) := by
  refine ⟨by simp [update_article_label], ?_, ?_, ?_⟩
  · intro i a ha hne
    simp [update_article_label, ha, hne]
  · intro i a ha heq
    simp [update_article_label, ha, heq, setLabel]
  · intro hall
    have : ∀ a ∈ db, (if a.id = aid then setLabel label src a else a) = a := by
      intro a ha
      simp [hall a ha]
    calc update_article_label db aid label src
        = db.map id := List.map_congr_left this
      _ = db := List.map_id db

/-- A two-row concrete `articles` table. -/
def dbC7 : List Article :=
  [⟨1, "u1", "feed", "title one", "body", "Unknown", "Unknown", "now", 0, none, none⟩,
   ⟨2, "u2", "feed", "title two", "body", "Unknown", "Unknown", "now", 0, some 0, some "old"⟩]

/-- Witness for C7: updating id 1 changes only row 0's two label fields and
leaves row 1 alone; updating an absent id 9 is a no-op. -/
theorem C7_update_article_label_frame_witness :
    (update_article_label dbC7 1 1 "s")[0]? =
      some { (⟨1, "u1", "feed", "title one", "body", "Unknown", "Unknown", "now", 0, none,
        none⟩ : Article) with verified_label := some 1, label_source := some "s" } ∧
    (update_article_label dbC7 1 1 "s")[1]? =
      some ⟨2, "u2", "feed", "title two", "body", "Unknown", "Unknown", "now", 0, some 0,
        some "old"⟩ ∧
    update_article_label dbC7 9 1 "s" = dbC7 :=
  ⟨(C7_update_article_label_frame dbC7 1 1 "s").2.2.1 0 _ (by decide) (by decide),
   (C7_update_article_label_frame dbC7 1 1 "s").2.1 1 _ (by decide) (by decide),
   (C7_update_article_label_frame dbC7 9 1 "s").2.2.2 (by decide)⟩

/-- A row of the `fact_checks` table, identified by its natural key
(claim, verdict, source_url, checker_site). -/
structure FactCheckRow where
  claim : String
  verdict : String
  source_url : String
  checker_site : String
deriving DecidableEq, Repr

/-- Modelled from the spec: the SQL schema file (`src/sql/database.sql`, read
by `db_setup.init_db`) is absent from the repository snapshot; the spec states
that the `fact_checks` table carries natural-key duplicate suppression on
(claim, verdict, source_url, checker_site) with insert-if-absent semantics.
Under that constraint, the `INSERT OR IGNORE` issued by
`politifact_scraper.save_fact_check` appends the row iff no row with the same
natural key is already stored, and otherwise leaves the table untouched. -/
def save_fact_check (db : List FactCheckRow) (data : FactCheckRow) : List FactCheckRow :=
  if data ∈ db then db else db ++ [data]

/-- C9: inserting the same fact-check natural-key tuple a second time leaves
exactly one stored row for that tuple: the second insert is suppressed (the
table is exactly what the first insert produced). -/
theorem C9_duplicate_insert_suppressed (db : List FactCheckRow) (d : FactCheckRow)
    (h : d ∉ db) :
    save_fact_check (save_fact_check db d) d = save_fact_check db d ∧
    (save_fact_check (save_fact_check db d) d).countP (fun r => decide (r = d)) = 1 := by
  have h1 : save_fact_check db d = db ++ [d] := if_neg h
  have h2 : save_fact_check (db ++ [d]) d = db ++ [d] := if_pos (by simp)
  have hz : db.countP (fun r => decide (r = d)) = 0 :=
    List.countP_eq_zero.2 (by
      intro a ha
      simp only [decide_eq_true_eq]
      rintro rfl
      exact h ha)
  constructor
  · rw [h1, h2]
  · rw [h1, h2, List.countP_append, hz]
    simp

/-- Witness for C9: inserting one concrete fact-check twice into the empty
table stores it exactly once. -/
theorem C9_duplicate_insert_suppressed_witness :
    save_fact_check (save_fact_check [] ⟨"c", "false", "u", "PolitiFact"⟩)
        ⟨"c", "false", "u", "PolitiFact"⟩ =
      save_fact_check [] ⟨"c", "false", "u", "PolitiFact"⟩ ∧
    (save_fact_check (save_fact_check [] ⟨"c", "false", "u", "PolitiFact"⟩)
        ⟨"c", "false", "u", "PolitiFact"⟩).countP
      (fun r => decide (r = ⟨"c", "false", "u", "PolitiFact"⟩)) = 1 :=
  C9_duplicate_insert_suppressed [] ⟨"c", "false", "u", "PolitiFact"⟩ (by decide)

/-- A row of the `fact_checks` table as read by the labeler
(`SELECT id, claim, verdict FROM fact_checks`). -/
structure FactRow where
  id : Nat
  claim : String
  verdict : String
deriving DecidableEq, Repr

/-- The embedding model plus cosine similarity, as a black box: the similarity
of (article title, fact-check claim). -/
abbrev Sim := String → String → ℚ

/-- `labeler.SIMILARITY_THRESHOLD = 0.85`. -/
def SIMILARITY_THRESHOLD : ℚ := mkRat 85 100

/-- `labeler.get_unlabeled_articles`:
`SELECT id, title FROM articles WHERE verified_label IS NULL`
(rows are kept whole; the matcher reads only `id` and `title`). -/
def get_unlabeled_articles (db : List Article) : List Article :=
  db.filter (fun a => a.verified_label.isNone)

/-- One row of the cosine-similarity matrix `cosine_scores[i]`: the scores of
one article title against every fact-check claim, in fact order. -/
def rowScores (sim : Sim) (title : String) (facts : List FactRow) : List ℚ :=
  facts.map (fun f => sim title f.claim)

/-- `tensor.max()` over a score row (the rows used are never empty). -/
def listMax : List ℚ → ℚ
  | [] => 0
  | x :: xs => xs.foldl max x

/-- Helper for `listArgmax`: fold carrying the best value and its index;
a strictly greater value replaces, so the first maximal index is kept. -/
def argmaxAux : List ℚ → ℚ → Nat → Nat → Nat
  | [], _, _, bi => bi
  | x :: xs, bv, i, bi => if bv < x then argmaxAux xs x (i + 1) i else argmaxAux xs bv (i + 1) bi

/-- `tensor.argmax()` over a score row: first index attaining the maximum. -/
def listArgmax : List ℚ → Nat
  | [] => 0
  | x :: xs => argmaxAux xs x 1 0

/-- An article's best match score: `float(cosine_scores[i].max())`. -/
def bestScore (sim : Sim) (facts : List FactRow) (a : Article) : ℚ :=
  listMax (rowScores sim a.title facts)

/-- Round `q` to hundredths with round-half-to-even, as Python's `"{:.2f}"`
does on the exact value: returns the integer number of hundredths. -/
def round2cents (q : ℚ) : ℤ :=
  let N : ℤ := 100 * q.num
  let D : ℤ := (q.den : ℤ)
  let n0 : ℤ := N.ediv D
  let r : ℤ := N.emod D
  if 2 * r < D then n0
  else if D < 2 * r then n0 + 1
  else if n0 % 2 = 0 then n0 else n0 + 1

/-- Python `f"{q:.2f}"` on the exact rational value. -/
def fmt2 (q : ℚ) : String :=
  let render := fun m : Nat =>
    toString (m / 100) ++ "." ++ (if m % 100 < 10 then "0" else "") ++ toString (m % 100)
  let n := round2cents q
  if n < 0 then "-" ++ render n.natAbs else render n.toNat

/-- `f"Match with PolitiFact (Sim: {best_score:.2f})"`. -/
def source_info_str (best_score : ℚ) : String :=
  "Match with PolitiFact (Sim: " ++ fmt2 best_score ++ ")"

/-- The observable outcome of one matching pass: the final `articles` table,
the reported `matches_found` and `count` tallies, the number of SQL `UPDATE`
statements issued, and the number of `model.encode` invocations. -/
structure MatchResult where
  db : List Article
  matches_found : Nat
  count : Nat
  update_calls : Nat
  encode_calls : Nat
deriving DecidableEq, Repr

/-- One iteration of the `for i in range(len(articles))` loop of
`labeler.run_matcher`.  `fails` is the persistence-failure oracle: when
`fails a.id` is true the SQL `UPDATE` inside `update_article_label` raises,
the exception is caught there (logged) and the table is left unchanged
(the transaction was never committed); the loop always continues. -/
def processArticle (sim : Sim) (fails : Nat → Bool) (facts : List FactRow)
    (st : MatchResult) (a : Article) : MatchResult :=
  let scores := rowScores sim a.title facts
  let best_score := listMax scores
  let st1 := if mkRat 1 2 < best_score then { st with count := st.count + 1 } else st
  if SIMILARITY_THRESHOLD ≤ best_score then
    match facts[listArgmax scores]? with
    | some fact_row =>
      match map_verdict_to_label fact_row.verdict with
      | some numeric_label =>
        { st1 with
          db :=
            if fails a.id then st1.db
            else update_article_label st1.db a.id numeric_label (source_info_str best_score)
          matches_found := st1.matches_found + 1
          update_calls := st1.update_calls + 1 }
      | none => st1
    | none => st1
  else st1

/-- `labeler.run_matcher`: load the unlabeled articles and the fact-checks,
exit early if either set is empty (before any embedding), otherwise encode
both sets (two `model.encode` calls) and run the matching loop. -/
def run_matcher (sim : Sim) (fails : Nat → Bool) (db : List Article)
    (facts : List FactRow) : MatchResult :=
  let articles := get_unlabeled_articles db
  if articles.isEmpty then ⟨db, 0, 0, 0, 0⟩
  else if facts.isEmpty then ⟨db, 0, 0, 0, 0⟩
  else articles.foldl (processArticle sim fails facts) ⟨db, 0, 0, 0, 2⟩

/-- The label the decision policy accepts for an article, if any: defined iff
the article's best score reaches the threshold and the first-best fact-check's
verdict maps to a defined label. -/
def acceptedLabel (sim : Sim) (facts : List FactRow) (a : Article) : Option Nat :=
  if SIMILARITY_THRESHOLD ≤ bestScore sim facts a then
    match facts[listArgmax (rowScores sim a.title facts)]? with
    | some f => map_verdict_to_label f.verdict
    | none => none
  else none

theorem processArticle_count (sim : Sim) (fails : Nat → Bool) (facts : List FactRow)
    (st : MatchResult) (a : Article) :
    (processArticle sim fails facts st a).count =
      st.count + (if mkRat 1 2 < bestScore sim facts a then 1 else 0) := by
  simp only [processArticle, bestScore]
  repeat' split
  all_goals simp

theorem processArticle_matches (sim : Sim) (fails : Nat → Bool) (facts : List FactRow)
    (st : MatchResult) (a : Article) :
    (processArticle sim fails facts st a).matches_found =
      st.matches_found + (if (acceptedLabel sim facts a).isSome then 1 else 0) := by
  simp only [processArticle, acceptedLabel, bestScore]
  repeat' split
  all_goals simp_all

theorem processArticle_db (sim : Sim) (fails : Nat → Bool) (facts : List FactRow)
    (st : MatchResult) (a : Article) :
    (processArticle sim fails facts st a).db =
      match acceptedLabel sim facts a with
      | some lbl =>
        if fails a.id then st.db
        else update_article_label st.db a.id lbl (source_info_str (bestScore sim facts a))
      | none => st.db := by
  simp only [processArticle, acceptedLabel, bestScore]
  repeat' split
  all_goals simp_all

theorem foldl_count (sim : Sim) (fails : Nat → Bool) (facts : List FactRow)
    (l : List Article) (st : MatchResult) :
    (l.foldl (processArticle sim fails facts) st).count =
      st.count + l.countP (fun a => decide (mkRat 1 2 < bestScore sim facts a)) := by
  induction l generalizing st with
  | nil => simp
  | cons b l ih =>
    rw [List.foldl_cons, ih, processArticle_count, List.countP_cons]
    by_cases h : mkRat 1 2 < bestScore sim facts b
    · simp [h]
      try omega
    · simp [h]
      try omega

theorem foldl_matches (sim : Sim) (fails : Nat → Bool) (facts : List FactRow)
    (l : List Article) (st : MatchResult) :
    (l.foldl (processArticle sim fails facts) st).matches_found =
      st.matches_found + l.countP (fun a => (acceptedLabel sim facts a).isSome) := by
  induction l generalizing st with
  | nil => simp
  | cons b l ih =>
    rw [List.foldl_cons, ih, processArticle_matches, List.countP_cons]
    by_cases h : (acceptedLabel sim facts b).isSome
    · simp [h]
      try omega
    · simp [h]
      try omega

theorem bestScore_nil (sim : Sim) (a : Article) : bestScore sim [] a = 0 := by
  simp [bestScore, rowScores, listMax]

theorem acceptedLabel_nil (sim : Sim) (a : Article) : acceptedLabel sim [] a = none := by
  have h : ¬ SIMILARITY_THRESHOLD ≤ bestScore sim [] a := by
    rw [bestScore_nil]
    decide
  simp [acceptedLabel, h]

theorem run_matcher_count (sim : Sim) (fails : Nat → Bool) (db : List Article)
    (facts : List FactRow) :
    (run_matcher sim fails db facts).count =
      (get_unlabeled_articles db).countP
        (fun a => decide (mkRat 1 2 < bestScore sim facts a)) := by
  unfold run_matcher
  by_cases hA : (get_unlabeled_articles db).isEmpty
  · rw [List.isEmpty_iff] at hA
    simp [hA]
  · by_cases hF : facts.isEmpty
    · rw [List.isEmpty_iff] at hF
      subst hF
      rw [if_neg hA, if_pos List.isEmpty_nil]
      symm
      apply List.countP_eq_zero.2
      intro a _
      rw [bestScore_nil]
      decide
    · rw [if_neg hA, if_neg hF, foldl_count]
      simp

theorem run_matcher_matches (sim : Sim) (fails : Nat → Bool) (db : List Article)
    (facts : List FactRow) :
    (run_matcher sim fails db facts).matches_found =
      (get_unlabeled_articles db).countP (fun a => (acceptedLabel sim facts a).isSome) := by
  unfold run_matcher
  by_cases hA : (get_unlabeled_articles db).isEmpty
  · rw [List.isEmpty_iff] at hA
    simp [hA]
  · by_cases hF : facts.isEmpty
    · rw [List.isEmpty_iff] at hF
      subst hF
      rw [if_neg hA, if_pos List.isEmpty_nil]
      symm
      apply List.countP_eq_zero.2
      intro a _
      simp [acceptedLabel_nil]
    · rw [if_neg hA, if_neg hF, foldl_matches]
      simp

theorem acceptedLabel_eq_none_of_below (sim : Sim) (facts : List FactRow) (a : Article)
    (h : ¬ SIMILARITY_THRESHOLD ≤ bestScore sim facts a) :
    acceptedLabel sim facts a = none := by
  simp [acceptedLabel, h]

theorem foldl_db_of_none (sim : Sim) (fails : Nat → Bool) (facts : List FactRow)
    (l : List Article) (st : MatchResult)
    (h : ∀ a ∈ l, acceptedLabel sim facts a = none) :
    (l.foldl (processArticle sim fails facts) st).db = st.db := by
  induction l generalizing st with
  | nil => rfl
  | cons b l ih =>
    rw [List.foldl_cons, ih _ (fun c hc => h c (List.mem_cons_of_mem b hc))]
    rw [processArticle_db, h b (List.mem_cons_self b l)]

theorem run_matcher_db_of_none (sim : Sim) (fails : Nat → Bool) (db : List Article)
    (facts : List FactRow)
    (h : ∀ a ∈ get_unlabeled_articles db, acceptedLabel sim facts a = none) :
    (run_matcher sim fails db facts).db = db := by
  unfold run_matcher
  by_cases hA : (get_unlabeled_articles db).isEmpty
  · rw [if_pos hA]
  · by_cases hF : facts.isEmpty
    · rw [if_neg hA, if_pos hF]
    · rw [if_neg hA, if_neg hF, foldl_db_of_none sim fails facts _ _ h]

/-- C10: the `matches_found` total reported at the end of the pass equals the
number of unlabeled articles whose best score reaches the threshold and whose
matched verdict maps to a defined label — for every persistence-failure oracle
`fails`, so it counts attempted labelings, not successfully persisted writes. -/
theorem C10_matches_found_counts_attempted (sim : Sim) (fails : Nat → Bool)
    (db : List Article) (facts : List FactRow) :
    (run_matcher sim fails db facts).matches_found =
      (get_unlabeled_articles db).countP (fun a => (acceptedLabel sim facts a).isSome) :=
  run_matcher_matches sim fails db facts

/-- C2 (amended): the "potential match" total reported at the end of the pass
equals the number of unlabeled articles whose best score is strictly greater
than 0.5 — with no upper bound, so an accepted article (score ≥ 0.85) is
counted both in `matches_found` and in this tally, and a score of exactly 0.5
is not counted. -/
theorem C2_count_tallies_strictly_above_half (sim : Sim) (fails : Nat → Bool)
    (db : List Article) (facts : List FactRow) :
    (run_matcher sim fails db facts).count =
      (get_unlabeled_articles db).countP
        (fun a => decide (mkRat 1 2 < bestScore sim facts a)) :=
  run_matcher_count sim fails db facts

/-- A one-article, one-fact scenario whose similarity is 0.9. -/
def aC2 : Article := ⟨1, "u", "feed", "moon landing", "b", "Unknown", "Unknown", "now", 0, none, none⟩

def dbC2 : List Article := [aC2]

def factsC2 : List FactRow := [⟨1, "The moon landing was staged", "false"⟩]

def simC2 : Sim := fun _ _ => mkRat 9 10

/-- Counterexample to C2 as stated: an article with best score 0.9 ≥ 0.85 is
an accepted match and is nevertheless counted in the reported potential-match
tally (count = 1), while the number of articles with 0.5 ≤ s < 0.85 is 0. -/
theorem C2_counterexample_accepted_also_counted :
    (run_matcher simC2 (fun _ => false) dbC2 factsC2).count = 1 ∧
    (run_matcher simC2 (fun _ => false) dbC2 factsC2).matches_found = 1 ∧
    SIMILARITY_THRESHOLD ≤ bestScore simC2 factsC2 aC2 ∧
    (get_unlabeled_articles dbC2).countP
      (fun a => decide (mkRat 1 2 ≤ bestScore simC2 factsC2 a ∧
        bestScore simC2 factsC2 a < SIMILARITY_THRESHOLD)) = 0 := by decide

/-- C3 (amended): an article whose best match score is exactly 0.5 is NOT
logged as a potential match (only scores strictly above 0.5 are), and nothing
is persisted for it: if every unlabeled article's best score is exactly 0.5,
the pass reports zero potential matches, zero accepted matches, and leaves the
article table unchanged. -/
theorem C3_exact_half_not_logged_not_persisted (sim : Sim) (fails : Nat → Bool)
    (db : List Article) (facts : List FactRow)
    (h : ∀ a ∈ get_unlabeled_articles db, bestScore sim facts a = mkRat 1 2) :
    (run_matcher sim fails db facts).count = 0 ∧
    (run_matcher sim fails db facts).matches_found = 0 ∧
    (run_matcher sim fails db facts).db = db := by
  refine ⟨?_, ?_, ?_⟩
  · rw [run_matcher_count]
    apply List.countP_eq_zero.2
    intro a ha
    rw [h a ha]
    decide
  · rw [run_matcher_matches]
    apply List.countP_eq_zero.2
    intro a ha
    rw [acceptedLabel_eq_none_of_below sim facts a (by rw [h a ha]; decide)]
    simp
  · apply run_matcher_db_of_none
    intro a ha
    exact acceptedLabel_eq_none_of_below sim facts a (by rw [h a ha]; decide)

/-- A one-article, one-fact scenario whose similarity is exactly 0.5. -/
def aC3 : Article := ⟨1, "u", "feed", "t", "b", "Unknown", "Unknown", "now", 0, none, none⟩

def dbC3 : List Article := [aC3]

def factsC3 : List FactRow := [⟨1, "c", "false"⟩]

def simC3 : Sim := fun _ _ => mkRat 1 2

/-- Counterexample to C3 as stated: at a best score of exactly 0.5 the code
logs nothing (the guard is the strict `best_score > 0.5`), so the potential
match claimed to be observable is not recorded: the reported tally is 0. -/
theorem C3_counterexample_exact_half_unlogged :
    bestScore simC3 factsC3 aC3 = mkRat 1 2 ∧
    (run_matcher simC3 (fun _ => false) dbC3 factsC3).count = 0 := by decide

/-- Witness for the amended C3 on the concrete exactly-0.5 scenario. -/
theorem C3_exact_half_not_logged_not_persisted_witness :
    (run_matcher simC3 (fun _ => false) dbC3 factsC3).count = 0 ∧
    (run_matcher simC3 (fun _ => false) dbC3 factsC3).matches_found = 0 ∧
    (run_matcher simC3 (fun _ => false) dbC3 factsC3).db = dbC3 :=
  C3_exact_half_not_logged_not_persisted simC3 (fun _ => false) dbC3 factsC3 (by decide)

/-- C6: if the unlabeled-article set is empty, or the fact-check set is empty,
the pass returns the store unchanged with zero matches, zero potential-match
tally, zero UPDATE statements issued, and zero embedding calls (it exits
before any encoding). -/
theorem C6_empty_inputs_no_side_effects (sim : Sim) (fails : Nat → Bool)
    (db : List Article) (facts : List FactRow)
    (h : get_unlabeled_articles db = [] ∨ facts = []) :
    run_matcher sim fails db facts = ⟨db, 0, 0, 0, 0⟩ := by
  unfold run_matcher
  rcases h with h | h
  · rw [if_pos (by rw [h]; exact List.isEmpty_nil)]
  · by_cases hA : (get_unlabeled_articles db).isEmpty
    · rw [if_pos hA]
    · rw [if_neg hA, if_pos (by rw [h]; exact List.isEmpty_nil)]

/-- A store whose only article is already labeled. -/
def dbC6 : List Article := [⟨1, "u", "feed", "t", "b", "Unknown", "Unknown", "now", 1, some 1, some "s"⟩]

def factsC6 : List FactRow := [⟨1, "c", "false"⟩]

/-- A store with one unlabeled article, used against an empty fact-check set. -/
def dbC6b : List Article := [⟨2, "u2", "feed", "t2", "b", "Unknown", "Unknown", "now", 0, none, none⟩]

/-- Witness for C6: no unlabeled articles (left), and no fact-checks (right). -/
theorem C6_empty_inputs_no_side_effects_witness :
    run_matcher (fun _ _ => 1) (fun _ => false) dbC6 factsC6 = ⟨dbC6, 0, 0, 0, 0⟩ ∧
    run_matcher (fun _ _ => 1) (fun _ => false) dbC6b [] = ⟨dbC6b, 0, 0, 0, 0⟩ :=
  ⟨C6_empty_inputs_no_side_effects _ _ dbC6 factsC6 (Or.inl (by decide)),
   C6_empty_inputs_no_side_effects _ _ dbC6b [] (Or.inr rfl)⟩

/-- The scenario demonstrating the C1 code bug: a perfect match (similarity 1)
against a fact-check whose verdict is "half-true". -/
def aC1 : Article := ⟨1, "u", "feed", "t", "b", "Unknown", "Unknown", "now", 0, none, none⟩

def dbC1 : List Article := [aC1]

def factsC1 : List FactRow := [⟨1, "t", "half-true"⟩]

/-- C1 (code-bug evidence): "half-true" contains the REAL indicator "true" as
a substring, so `map_verdict_to_label` returns 0 (REAL), not `none`; an
article perfectly matched to a "half-true" fact-check is therefore NOT left
unmodified — its verified-label is set to 0 — contradicting the code's own
comment (`return None  # we ignore half-true`) and the spec. -/
theorem C1_half_true_mapped_to_REAL_and_persisted :
    map_verdict_to_label "half-true" = some 0 ∧
    pyContains "half-true" "true" = true ∧
    (run_matcher (fun _ _ => 1) (fun _ => false) dbC1 factsC1).db =
      [{ aC1 with verified_label := some 0,
                  label_source := some "Match with PolitiFact (Sim: 1.00)" }] := by decide

/-- SQL `SELECT * FROM articles WHERE id = ?` (first row with that id). -/
def getById (db : List Article) (i : Nat) : Option Article :=
  db.find? (fun a => a.id == i)

theorem getById_update_article_label (db : List Article) (aid label : Nat) (src : String)
    (i : Nat) :
    getById (update_article_label db aid label src) i =
      (getById db i).map (fun a => if a.id = aid then setLabel label src a else a) := by
  unfold getById update_article_label
  have hp : ((fun a : Article => a.id == i) ∘
      fun a => if a.id = aid then setLabel label src a else a) =
      (fun a : Article => a.id == i) := by
    funext a
    by_cases h : a.id = aid <;> simp [Function.comp, setLabel, h]
  rw [List.find?_map, hp]

theorem getById_update_ne (db : List Article) (aid label : Nat) (src : String) (i : Nat)
    (h : i ≠ aid) :
    getById (update_article_label db aid label src) i = getById db i := by
  rw [getById_update_article_label]
  cases hf : getById db i with
  | none => rfl
  | some a =>
    simp only [getById] at hf
    have ha := List.find?_some hf
    rw [Nat.beq_eq_true_eq] at ha
    have hne : a.id ≠ aid := by omega
    simp [hne]

theorem getById_update_self (db : List Article) (aid label : Nat) (src : String) :
    getById (update_article_label db aid label src) aid =
      (getById db aid).map (setLabel label src) := by
  rw [getById_update_article_label]
  cases hf : getById db aid with
  | none => rfl
  | some a =>
    simp only [getById] at hf
    have ha := List.find?_some hf
    rw [Nat.beq_eq_true_eq] at ha
    simp [ha]

theorem getById_of_mem_nodup (db : List Article) (a : Article)
    (hnd : (db.map Article.id).Nodup) (hmem : a ∈ db) :
    getById db a.id = some a := by
  induction db with
  | nil => cases hmem
  | cons b l ih =>
    rcases List.mem_cons.1 hmem with rfl | hmem'
    · unfold getById
      rw [List.find?_cons_of_pos _ (by simp)]
    · have hbne : b.id ≠ a.id := fun he =>
        (List.nodup_cons.1 hnd).1 (he ▸ List.mem_map_of_mem Article.id hmem')
      unfold getById
      rw [List.find?_cons_of_neg _ (by simp [hbne])]
      exact ih (List.nodup_cons.1 hnd).2 hmem'

theorem processArticle_getById_frame (sim : Sim) (fails : Nat → Bool) (facts : List FactRow)
    (st : MatchResult) (b : Article) (i : Nat) (h : b.id ≠ i) :
    getById (processArticle sim fails facts st b).db i = getById st.db i := by
  rw [processArticle_db]
  split
  · split
    · rfl
    · exact getById_update_ne st.db b.id _ _ i (Ne.symm h)
  · rfl

theorem foldl_getById_frame (sim : Sim) (fails : Nat → Bool) (facts : List FactRow)
    (l : List Article) (st : MatchResult) (i : Nat) (h : ∀ b ∈ l, b.id ≠ i) :
    getById (l.foldl (processArticle sim fails facts) st).db i = getById st.db i := by
  induction l generalizing st with
  | nil => rfl
  | cons b l ih =>
    rw [List.foldl_cons, ih _ (fun c hc => h c (List.mem_cons_of_mem b hc)),
      processArticle_getById_frame sim fails facts st b i (h b (List.mem_cons_self b l))]

theorem foldl_getById_sets_label (sim : Sim) (fails : Nat → Bool) (facts : List FactRow)
    (a : Article) (lbl : Nat)
    (hfail : fails a.id = false)
    (hacc : acceptedLabel sim facts a = some lbl) :
    ∀ (l : List Article) (st : MatchResult), a ∈ l → (l.map Article.id).Nodup →
      getById st.db a.id = some a →
      getById (l.foldl (processArticle sim fails facts) st).db a.id =
        some (setLabel lbl (source_info_str (bestScore sim facts a)) a) := by
  intro l
  induction l with
  | nil => intro st hmem; cases hmem
  | cons b l ih =>
    intro st hmem hnd hst
    rw [List.foldl_cons]
    rcases List.mem_cons.1 hmem with rfl | hmem'
    · have hids : ∀ c ∈ l, c.id ≠ a.id := by
        intro c hc he
        exact (List.nodup_cons.1 hnd).1 (he ▸ List.mem_map_of_mem Article.id hc)
      rw [foldl_getById_frame sim fails facts l _ a.id hids]
      rw [processArticle_db]
      simp only [hacc, hfail, Bool.false_eq_true, if_false]
      rw [getById_update_self, hst]
      rfl
    · have hbne : b.id ≠ a.id := fun he =>
        (List.nodup_cons.1 hnd).1 (he ▸ List.mem_map_of_mem Article.id hmem')
      apply ih _ hmem' (List.nodup_cons.1 hnd).2
      rw [processArticle_getById_frame sim fails facts st b a.id hbne]
      exact hst

/-- C4: for every article whose best match score is at least the 0.85
threshold and whose matched fact-check's verdict contains the substring
"false", the matching pass sets that article's verified-label to 1 (FAKE) and
its label-source to the non-null string embedding the similarity score. -/
theorem C4_high_score_false_verdict_sets_FAKE (sim : Sim) (fails : Nat → Bool)
    (db : List Article) (facts : List FactRow) (a : Article) (f : FactRow)
    (hnd : (db.map Article.id).Nodup)
    (hmem : a ∈ db) (hunl : a.verified_label = none)
    (hfail : fails a.id = false)
    (hscore : SIMILARITY_THRESHOLD ≤ bestScore sim facts a)
    (hmatch : facts[listArgmax (rowScores sim a.title facts)]? = some f)
    (hfalse : pyContains f.verdict "false" = true) :
    getById (run_matcher sim fails db facts).db a.id =
      some { a with verified_label := some 1,
                    label_source := some (source_info_str (bestScore sim facts a)) } := by
  have hlbl : map_verdict_to_label f.verdict = some 1 :=
    map_verdict_eq_one_of_fake f.verdict
      ⟨"false", by decide, pyContains_pyLower f.verdict "false" (by decide) hfalse⟩
  have hacc : acceptedLabel sim facts a = some 1 := by
    simp only [acceptedLabel, if_pos hscore, hmatch, hlbl]
  have hmem' : a ∈ get_unlabeled_articles db :=
    List.mem_filter.2 ⟨hmem, by simp [hunl]⟩
  have hsub : List.Sublist (get_unlabeled_articles db) db := List.filter_sublist db
  have hnd' : ((get_unlabeled_articles db).map Article.id).Nodup :=
    hnd.sublist (hsub.map Article.id)
  have hAne : ¬ (get_unlabeled_articles db).isEmpty = true := by
    rw [List.isEmpty_iff]
    exact List.ne_nil_of_mem hmem'
  have hFne : ¬ facts.isEmpty = true := by
    rw [List.isEmpty_iff]
    intro h0
    subst h0
    simp at hmatch
  unfold run_matcher
  rw [if_neg hAne, if_neg hFne]
  exact foldl_getById_sets_label sim fails facts a 1 hfail hacc _ _ hmem' hnd'
    (getById_of_mem_nodup db a hnd hmem)

/-- The spec's moon-landing scenario with a "false" verdict and a stub
embedder giving similarity 1 to identical strings. -/
def aC4 : Article := ⟨1, "u", "feed", "The moon landing was staged", "b", "Unknown", "Unknown", "now", 0, none, none⟩

def dbC4 : List Article := [aC4]

def fC4 : FactRow := ⟨1, "The moon landing was staged", "false"⟩

def factsC4 : List FactRow := [fC4]

def simC4 : Sim := fun t c => if t = c then 1 else 0

/-- Witness for C4 on the concrete perfect-match scenario. -/
theorem C4_high_score_false_verdict_sets_FAKE_witness :
    (dbC4.map Article.id).Nodup ∧
    SIMILARITY_THRESHOLD ≤ bestScore simC4 factsC4 aC4 ∧
    pyContains fC4.verdict "false" = true ∧
    getById (run_matcher simC4 (fun _ => false) dbC4 factsC4).db aC4.id =
      some { aC4 with verified_label := some 1,
                      label_source := some (source_info_str (bestScore simC4 factsC4 aC4)) } :=
  ⟨by decide, by decide, by decide,
   C4_high_score_false_verdict_sets_FAKE simC4 (fun _ => false) dbC4 factsC4 aC4 fC4
     (by decide) (by decide) rfl rfl (by decide) (by decide) (by decide)⟩

theorem foldl_getById_nofail (sim : Sim) (fails : Nat → Bool) (facts : List FactRow)
    (i : Nat) (hfail : fails i = false) :
    ∀ (l : List Article) (st st' : MatchResult),
      getById st.db i = getById st'.db i →
      getById (l.foldl (processArticle sim fails facts) st).db i =
        getById (l.foldl (processArticle sim (fun _ => false) facts) st').db i := by
  intro l
  induction l with
  | nil => intro st st' h; exact h
  | cons b l ih =>
    intro st st' h
    rw [List.foldl_cons, List.foldl_cons]
    apply ih
    rw [processArticle_db, processArticle_db]
    split
    · simp only [Bool.false_eq_true, if_false]
      by_cases hbi : b.id = i
      · subst hbi
        rw [if_neg (by simp [hfail])]
        rw [getById_update_self, getById_update_self, h]
      · have hne : i ≠ b.id := fun he => hbi he.symm
        rw [getById_update_ne st'.db b.id _ _ i hne]
        by_cases hfb : fails b.id = true
        · rw [if_pos hfb]
          exact h
        · rw [if_neg hfb, getById_update_ne st.db b.id _ _ i hne]
          exact h
    · exact h

/-- C8: a persistence failure on some rows (oracle `fails`) does not abort the
batch: the pass still processes every article (the reported `matches_found`
and potential-match tally equal those of a failure-free run), and every row
whose own updates succeed — in particular every row committed by an earlier
iteration than a failing one — holds exactly the value it has after a
failure-free run. -/
theorem C8_row_failure_does_not_abort_batch (sim : Sim) (fails : Nat → Bool)
    (db : List Article) (facts : List FactRow) :
    (run_matcher sim fails db facts).matches_found =
      (run_matcher sim (fun _ => false) db facts).matches_found ∧
    (run_matcher sim fails db facts).count =
      (run_matcher sim (fun _ => false) db facts).count ∧
    ∀ i : Nat, fails i = false →
      getById (run_matcher sim fails db facts).db i =
        getById (run_matcher sim (fun _ => false) db facts).db i := by
  refine ⟨?_, ?_, ?_⟩
  · rw [run_matcher_matches, run_matcher_matches]
  · rw [run_matcher_count, run_matcher_count]
  · intro i hfail
    unfold run_matcher
    by_cases hA : (get_unlabeled_articles db).isEmpty
    · rw [if_pos hA, if_pos hA]
    · by_cases hF : facts.isEmpty
      · rw [if_neg hA, if_neg hA, if_pos hF, if_pos hF]
      · rw [if_neg hA, if_neg hA, if_neg hF, if_neg hF]
        exact foldl_getById_nofail sim fails facts i hfail _ _ _ rfl

/-- Two matching articles; the persistence of article 1 fails, article 2
succeeds. -/
def a8a : Article := ⟨1, "u1", "feed", "t", "b", "Unknown", "Unknown", "now", 0, none, none⟩

def a8b : Article := ⟨2, "u2", "feed", "t", "b", "Unknown", "Unknown", "now", 0, none, none⟩

def db8 : List Article := [a8a, a8b]

def facts8 : List FactRow := [⟨1, "t", "false"⟩]

def sim8 : Sim := fun _ _ => 1

def fails8 : Nat → Bool := fun i => i == 1

/-- Witness for C8: with article 1's update failing, the tallies match the
failure-free run and article 2's row ends with its failure-free value. -/
theorem C8_row_failure_does_not_abort_batch_witness :
    (run_matcher sim8 fails8 db8 facts8).matches_found =
      (run_matcher sim8 (fun _ => false) db8 facts8).matches_found ∧
    (run_matcher sim8 fails8 db8 facts8).count =
      (run_matcher sim8 (fun _ => false) db8 facts8).count ∧
    getById (run_matcher sim8 fails8 db8 facts8).db 2 =
      getById (run_matcher sim8 (fun _ => false) db8 facts8).db 2 :=
  ⟨(C8_row_failure_does_not_abort_batch sim8 fails8 db8 facts8).1,
   (C8_row_failure_does_not_abort_batch sim8 fails8 db8 facts8).2.1,
   (C8_row_failure_does_not_abort_batch sim8 fails8 db8 facts8).2.2 2 rfl⟩
